import Mathlib

/-!
Verification development for the DETReg driver code (`engine.py`, `bash.py`).

The Python driver functions (`train_one_epoch`, `evaluate`, `viz`,
`plot_result`) are straight-line loops over a data loader; we embed them
shallowly: each loop body becomes a Lean function producing an event trace
together with its explicit state (metric meters, mutated label tensors),
and the scalar values carried by tensors become rationals.  Python floats
that can be NaN or infinite are modelled by the inductive `FloatVal`.
External framework functions (torch softmax, sklearn
`average_precision_score`, the box-format conversion from `util.box_ops`)
are parameters of the embedding, since their code is not part of the two
files under study.
-/

/-- Python's `needle in hay` substring test on lists of characters. -/
def charsInfix (needle hay : List Char) : Bool :=
  (List.range (hay.length + 1)).any
    (fun i => ((hay.drop i).take needle.length) == needle)

/-- Python's `needle in hay` substring test on strings. -/
def strIn (needle hay : String) : Bool :=
  charsInfix needle.toList hay.toList

/-- Maximum entry of a rational list (`tensor.max(-1)` values); 0 on `[]`. -/
def rowMax : List ℚ → ℚ
  | [] => 0
  | [x] => x
  | x :: y :: rest => max x (rowMax (y :: rest))

/-- Index of the first maximal entry (`tensor.max(-1)` indices); 0 on `[]`. -/
def rowArgmax (l : List ℚ) : ℕ :=
  (go l).2
where
  /-- returns (max value, its first index), scanning left to right -/
  go : List ℚ → ℚ × ℕ
    | [] => (0, 0)
    | [x] => (x, 0)
    | x :: y :: rest =>
      let (m, i) := go (y :: rest)
      if m > x then (m, i + 1) else (x, 0)

/-- Running count of `true`s: `numpy.cumsum` on a boolean array. -/
def cumsum : List Bool → List ℕ
  | [] => []
  | b :: rest => (if b then 1 else 0) :: (cumsum rest).map (· + (if b then 1 else 0))

/-- Python dict lookup on an association list: `d[k]`, `none` = KeyError. -/
def dictGet (d : List (String × String)) (k : String) : Option String :=
  (d.find? (fun p => p.1 == k)).map (·.2)

/-- Lookup with default, for rational-valued dicts. -/
def qDictGetD (d : List (String × ℚ)) (k : String) (v : ℚ) : ℚ :=
  ((d.find? (fun p => p.1 == k)).map (·.2)).getD v

/-- `torch.sort(descending=True)[1]`: indices of `s` ranked by descending
value (ties resolved by insertion sort). -/
def argsortDesc (s : List ℚ) : List ℕ :=
  (List.range s.length).insertionSort (fun i j => s.getD j 0 ≤ s.getD i 0)

/-- Numpy boolean-mask indexing `xs[mask]`, for same-length `xs`/`mask`. -/
def maskFilter {α : Type} (xs : List α) (mask : List Bool) : List α :=
  ((xs.zip mask).filter (·.2)).map (·.1)

/-- A Python float: either a finite value, NaN, or a signed infinity. -/
inductive FloatVal where
  | fin (q : ℚ)
  | nan
  | inf
  | neginf
deriving DecidableEq, Repr

/-- `math.isfinite` on a Python float. -/
def FloatVal.isFinite : FloatVal → Bool
  | .fin _ => true
  | _ => false

/-- The finite value carried by a `FloatVal` (0 for NaN/inf). -/
def FloatVal.toQ : FloatVal → ℚ
  | .fin q => q
  | _ => 0

/-! ### `bash.py`

`bash.py` builds a fixed command list and appends its own command-line
arguments (`sys.argv[1:]`), then hands the list to `subprocess.run`. -/

/-- The `command` list built by `bash.py`, as a function of `sys.argv[1:]`. -/
def command (PY_ARGS : List String) : List String :=
  ["./configs/DETReg_fine_tune_full_pascal.sh",
   "--resume", "exps/DETReg_fine_tune_full_pascal/checkpoint0099.pth",
   "--viz"] ++ PY_ARGS

/-- The single external action `bash.py` performs: `subprocess.run(command)`. -/
structure SubprocessRun where
  argv : List String
deriving DecidableEq, Repr

/-- Running `bash.py` with arguments `args` performs this subprocess call. -/
def bashPyRun (args : List String) : SubprocessRun :=
  { argv := command args }

/-! ### `train_one_epoch`

The per-batch body of `train_one_epoch` (engine.py lines 54-91) is embedded
as an event trace.  The loss dictionary reduced over GPUs and the scalar
`losses_reduced_scaled.item()` are produced by external torch/distributed
code, so each batch carries them as data. -/

/-- One observable action of the training loop body. -/
inductive TrainEv where
  | forwardPass                      -- `outputs = model(samples)`
  | swavForward                      -- `elem['patches'] = swav_model(...)`
  | criterionLoss                    -- `loss_dict = criterion(outputs, targets)`
  | reduceDict                       -- `loss_dict_reduced = utils.reduce_dict(...)`
  | finCheck                         -- `if not math.isfinite(loss_value):`
  | printLossMsg (v : FloatVal)      -- `print("Loss is ..., stopping training")`
  | printLossDict                    -- `print(loss_dict_reduced)`
  | sysExit (code : ℕ)               -- `sys.exit(1)`
  | zeroGrad                         -- `optimizer.zero_grad()`
  | backward                         -- `losses.backward()`
  | clipGradNorm (maxNorm : ℚ)       -- `torch.nn.utils.clip_grad_norm_(...)`
  | totalGradNorm                    -- `utils.get_total_grad_norm(...)`
  | optStep                          -- `optimizer.step()`
  | meterUpdate (name : String)      -- `metric_logger.update(...)` (one key)
  | prefetchNext                     -- `samples, targets = prefetcher.next()`
deriving DecidableEq, Repr

/-- Data of one batch as seen by the loop body: the reduced loss dictionary
(name, value) and the scalar `losses_reduced_scaled.item()`, both computed
by external tensor code, plus the gradient norm the optimizer reports. -/
structure TrainBatch where
  lossDict : List (String × ℚ)
  lossValue : FloatVal
  gradNorm : ℚ
deriving Repr

/-- Meter-update events of engine.py lines 86-89, in keyword order:
`loss`, the scaled keys, the unscaled keys, then `class_error`, `lr`,
`grad_norm`. `weightKeys` is `criterion.weight_dict`'s key set. -/
def meterUpdateEvs (weightKeys : List String) (b : TrainBatch) : List TrainEv :=
  [TrainEv.meterUpdate "loss"] ++
  ((b.lossDict.filter (fun p => weightKeys.contains p.1)).map
      (fun p => TrainEv.meterUpdate p.1)) ++
  (b.lossDict.map (fun p => TrainEv.meterUpdate (p.1 ++ "_unscaled"))) ++
  [TrainEv.meterUpdate "class_error", TrainEv.meterUpdate "lr",
   TrainEv.meterUpdate "grad_norm"]

/-- Trace of one iteration of `train_one_epoch`'s loop (lines 54-91):
forward pass, optional SwAV pass, criterion, loss reduction, finiteness
check; on a non-finite loss the two prints and `sys.exit(1)`; otherwise
zero_grad, backward, clip-or-measure of the gradient norm, optimizer step,
meter updates, and the end-of-iteration prefetcher fetch. -/
def trainStepTrace (swavPresent : Bool) (maxNorm : ℚ) (weightKeys : List String)
    (b : TrainBatch) : List TrainEv :=
  [TrainEv.forwardPass] ++
  (if swavPresent then [TrainEv.swavForward] else []) ++
  [TrainEv.criterionLoss, TrainEv.reduceDict, TrainEv.finCheck] ++
  (if b.lossValue.isFinite then
    [TrainEv.zeroGrad, TrainEv.backward] ++
    (if 0 < maxNorm then [TrainEv.clipGradNorm maxNorm] else [TrainEv.totalGradNorm]) ++
    [TrainEv.optStep] ++
    meterUpdateEvs weightKeys b ++
    [TrainEv.prefetchNext]
  else
    [TrainEv.printLossMsg b.lossValue, TrainEv.printLossDict, TrainEv.sysExit 1])

/-- A smoothed-value meter.  Modelled from the spec: `utils.SmoothedValue`
of `util/misc.py` is not among the files under study; its `update` adds the
value to a running total and count, and `global_avg` is total over count. -/
structure Meter where
  total : ℚ
  count : ℕ
deriving Repr

/-- `SmoothedValue.global_avg`. -/
def Meter.globalAvg (m : Meter) : ℚ := m.total / m.count

/-- Modelled from the spec: `utils.MetricLogger` of `util/misc.py` is not
among the files under study; it keeps an insertion-ordered dictionary of
meters, `update` creating a missing meter on the fly. -/
structure MetricLogger where
  meters : List (String × Meter)
deriving Repr

/-- `MetricLogger.add_meter`: registers an (empty) meter under `name`. -/
def MetricLogger.addMeter (ml : MetricLogger) (name : String) : MetricLogger :=
  { meters := ml.meters ++ [(name, { total := 0, count := 0 })] }

/-- `MetricLogger.update` for a single keyword argument. -/
def MetricLogger.update (ml : MetricLogger) (name : String) (v : ℚ) : MetricLogger :=
  if ml.meters.any (fun p => p.1 == name) then
    { meters := ml.meters.map (fun p =>
        if p.1 == name then (p.1, { total := p.2.total + v, count := p.2.count + 1 })
        else p) }
  else
    { meters := ml.meters ++ [(name, { total := v, count := 1 })] }

/-- The meter names registered in `ml`. -/
def MetricLogger.names (ml : MetricLogger) : List String :=
  ml.meters.map (·.1)

/-- The meter updates of engine.py lines 86-89 applied to the logger state:
`loss`, scaled keys (value times weight), unscaled keys, `class_error`
(from the reduced dict), `lr`, `grad_norm`. -/
def applyMeterUpdates (weightDict : List (String × ℚ)) (lr : ℚ)
    (ml : MetricLogger) (b : TrainBatch) : MetricLogger :=
  let ml := ml.update "loss" b.lossValue.toQ
  let ml := (b.lossDict.filter (fun p => weightDict.any (fun w => w.1 == p.1))).foldl
      (fun acc p => acc.update p.1 (p.2 * qDictGetD weightDict p.1 0)) ml
  let ml := b.lossDict.foldl
      (fun acc p => acc.update (p.1 ++ "_unscaled") p.2) ml
  let ml := ml.update "class_error" (qDictGetD b.lossDict "class_error" 0)
  let ml := ml.update "lr" lr
  ml.update "grad_norm" b.gradNorm

/-- Result of running a whole epoch: the trace, the final logger, how many
times `prefetcher.next()` was called, how many loop iterations ran, and
whether the process exited via `sys.exit(1)`. -/
structure EpochState where
  trace : List TrainEv
  logger : MetricLogger
  fetches : ℕ
  iters : ℕ
  exited : Bool
deriving Repr

/-- The loop of `train_one_epoch` (lines 53-91): one iteration per batch,
stopping early (with exit) at the first non-finite loss; every completed
iteration ends with a prefetcher fetch. -/
def trainLoop (swavPresent : Bool) (maxNorm : ℚ) (weightDict : List (String × ℚ))
    (lr : ℚ) : List TrainBatch → EpochState → EpochState
  | [], st => st
  | b :: rest, st =>
    let tr := trainStepTrace swavPresent maxNorm (weightDict.map (·.1)) b
    if b.lossValue.isFinite then
      trainLoop swavPresent maxNorm weightDict lr rest
        { trace := st.trace ++ tr,
          logger := applyMeterUpdates weightDict lr st.logger b,
          fetches := st.fetches + 1,
          iters := st.iters + 1,
          exited := false }
    else
      { trace := st.trace ++ tr, logger := st.logger,
        fetches := st.fetches, iters := st.iters + 1, exited := true }

/-- `train_one_epoch` (engine.py lines 37-95): registers the `lr`,
`class_error` and `grad_norm` meters, performs the initial prefetcher
fetch, runs the loop over `len(data_loader)` batches, and returns
`{k: meter.global_avg for k, meter in metric_logger.meters.items()}`
when no exit occurred. -/
def train_one_epoch (swavPresent : Bool) (maxNorm : ℚ)
    (weightDict : List (String × ℚ)) (lr : ℚ) (batches : List TrainBatch) :
    EpochState × Option (List (String × ℚ)) :=
  let ml0 := (((MetricLogger.mk []).addMeter "lr").addMeter "class_error").addMeter "grad_norm"
  let st0 : EpochState :=
    { trace := [TrainEv.prefetchNext], logger := ml0, fetches := 1,
      iters := 0, exited := false }
  let st := trainLoop swavPresent maxNorm weightDict lr batches st0
  (st, if st.exited then none
       else some (st.logger.meters.map (fun p => (p.1, p.2.globalAvg))))

/-! ### The inline AP measurement of `evaluate` (engine.py lines 165-221)

`evaluate` computes, per batch and for the first image only, a per-class
average precision of its own: predictions kept above confidence 0.01,
a PASCAL-VOC-style AP with true positives at score > 0.5, and an MS-COCO
style AP averaging over 101 thresholds.  sklearn's
`average_precision_score` is external library code and is a parameter
`apScore` of the embedding. -/

/-- `true_positives.cumsum() / (np.arange(len(..)) + 1)`. -/
def precisionList (tp : List Bool) : List ℚ :=
  List.zipWith (fun c i => (c : ℚ) / ((i : ℚ) + 1)) (cumsum tp) (List.range tp.length)

/-- `true_positives.cumsum() / len(cls_gt_box_np)`. -/
def recallList (tp : List Bool) (nGt : ℕ) : List ℚ :=
  (cumsum tp).map (fun c => (c : ℚ) / (nGt : ℚ))

/-- `np.linspace(0, 1, 101)`: the 101 equally spaced thresholds. -/
def thresholds : List ℚ :=
  (List.range 101).map (fun (i : ℕ) => (i : ℚ) / 100)

/-- The AP computed at score threshold `t` (engine.py lines 208-216):
true positives are the predictions with score strictly above `t`,
and `average_precision_score` is applied to them and their precision
list. -/
def apAtThreshold (apScore : List Bool → List ℚ → ℚ) (preds : List ℚ) (t : ℚ) : ℚ :=
  let tp := preds.map (fun p => decide (t < p))
  apScore tp (precisionList tp)

/-- What the per-class loop records for one index: the class looked at,
the VOC-style AP of line 198 (when predictions exist), and the value
printed at line 221 (the COCO-style average, or 0 with no predictions). -/
structure APEntry where
  cls : ℤ
  vocAP : Option ℚ
  printedAP : ℚ
deriving Repr, Inhabited, DecidableEq

/-- Engine.py lines 166-170: the slice `[..., :-1]` drops the last class
of each softmax row (`smRows`; softmax itself is external torch code),
`values`/`indices` are the per-row max and argmax, and the keep mask
retains the rows with confidence strictly above 0.01. -/
def keptPredictions (smRows : List (List ℚ)) : List (ℚ × ℕ) :=
  let probas := smRows.map List.dropLast
  let values := probas.map rowMax
  let indices := probas.map rowArgmax
  (values.zip indices).filter (fun p => decide ((1 : ℚ)/100 < p.1))

/-- Line 178: `cls_pred = values[indices == cls_num]` — the confidences
of the kept predictions whose argmax class equals `clsNum`. -/
def classPreds (kept : List (ℚ × ℕ)) (clsNum : ℤ) : List ℚ :=
  (kept.filter (fun p => decide ((p.2 : ℤ) = clsNum))).map (·.1)

/-- One round of the per-class AP loop (lines 177-221): the class is
`gt_cls[ind]`; with no matching predictions the reported AP is 0; with
predictions sorted by descending score, the VOC-style AP takes true
positives at score > 0.5, and the reported MS-COCO-style AP averages
`average_precision_score` over the 101 thresholds. -/
def measureAPEntry (apScore : List Bool → List ℚ → ℚ) (kept : List (ℚ × ℕ))
    (gtCls : List ℤ) (ind : ℕ) : APEntry :=
  let clsNum := gtCls.getD ind 0
  let clsPred := classPreds kept clsNum
  if clsPred.isEmpty then
    { cls := clsNum, vocAP := none, printedAP := 0 }
  else
    let sorted := clsPred.insertionSort (fun a b => b ≤ a)
    let voc := apScore (sorted.map (fun p => decide ((1 : ℚ)/2 < p)))
                 (precisionList (sorted.map (fun p => decide ((1 : ℚ)/2 < p))))
    let aps := thresholds.map (apAtThreshold apScore sorted)
    { cls := clsNum, vocAP := some voc,
      printedAP := aps.sum / (aps.length : ℚ) }

/-- The per-class AP loop (engine.py lines 166-221): one round per
element of `gt_cls.unique()`. -/
def measureAP (apScore : List Bool → List ℚ → ℚ) (smRows : List (List ℚ))
    (gtCls : List ℤ) : List APEntry :=
  (List.range gtCls.eraseDups.length).map
    (measureAPEntry apScore (keptPredictions smRows) gtCls)

/-! ### `evaluate` (engine.py lines 98-310)

The function first rebinds its `output_dir` parameter to the constant
`'vis'` (line 105) and chooses the evaluator class by the dataset type
name (line 114); then for every batch it runs the body embedded below as
an event trace. -/

/-- Which evaluator class line 114 constructs. -/
inductive EvaluatorKind where
  | coco
  | voc
deriving DecidableEq, Repr

/-- Line 114: `CocoEvaluator if 'COCO' in type(base_ds).__name__ else
VocEvaluator`. -/
def chooseEvaluator (baseDsTypeName : String) : EvaluatorKind :=
  if strIn "COCO" baseDsTypeName then .coco else .voc

/-- One observable action of `evaluate`'s loop body. -/
inductive EvalEv where
  | toDevice                           -- `samples.to(device)`, targets to device
  | loadDet (imageId : ℤ)              -- the `'loaddet' in output_dir` branch
  | modelForward                       -- `outputs = model(samples)`
  | apTxtWrite (name : String) (ap : ℚ)  -- `file.write(...)` into ./ap.txt
  | apPrint (cls : ℤ) (ap : ℚ)         -- `print(f'AP for class ...')`
  | plotSave (path : String)           -- `plt.savefig(...)`
  | criterionLoss                      -- `loss_dict = criterion(outputs, targets)`
  | meterUpdates                       -- `metric_logger.update(...)`
  | postprocess                        -- `results = postprocessors['bbox'](...)`
  | saveDet (imageId : ℤ)              -- the `'savedet' in output_dir` branch
  | evaluatorUpdate                    -- `coco_evaluator.update(res)`
  | panopticUpdate                     -- `panoptic_evaluator.update(res_pano)`
deriving DecidableEq, Repr

/-- An inline detection-metric computation performed by `evaluate` itself
(the AP prints of line 221 and the ap.txt writes of line 202), as opposed
to the delegated `coco_evaluator.update`. -/
def EvalEv.isInlineMetric : EvalEv → Bool
  | .apPrint _ _ => true
  | .apTxtWrite _ _ => true
  | _ => false

/-- The list of file names hard-coded at engine.py lines 129-136. -/
def image_filenames : List String :=
  ["img_2021000247.jpg", "img_2021000706.jpg", "img_2021001070.jpg",
   "img_2021003055.jpg", "img_2021007554.jpg", "img_2021008746.jpg"]

/-- Data of one batch as `evaluate`'s body sees it: the image id of the
first target, the softmax rows of the selected top-10 predictions, the
ground-truth labels of the first image, and the image ids of all targets
(for the save/load branches). -/
structure EvalBatch where
  imageId : ℤ
  smRows : List (List ℚ)
  gtCls : List ℤ
  targetIds : List ℤ
deriving Repr

/-- What one round of the per-class AP loop emits: the conditional ap.txt
write of lines 200-202 (only with predictions present and only for the
six hard-coded file names) followed by the print of line 221. -/
def apEntryTrace (name : String) (e : APEntry) : List EvalEv :=
  (match e.vocAP with
   | some voc => if image_filenames.contains name then [EvalEv.apTxtWrite name voc] else []
   | none => []) ++ [EvalEv.apPrint e.cls e.printedAP]

/-- The trace of the per-class AP loop (lines 175-221). -/
def apLoopTrace (apScore : List Bool → List ℚ → ℚ) (b : EvalBatch) : List EvalEv :=
  ((measureAP apScore b.smRows b.gtCls).map
    (apEntryTrace ("img_" ++ toString b.imageId ++ ".jpg"))).flatten

/-- The loop body of `evaluate` (engine.py lines 125-283) under the
effective `output_dir` (the body's view of the variable after line 105),
with the load/save branches guarded by the substring tests of lines 140
and 257 and the final delegation to the evaluator's `update`. -/
def evalBatchTrace (effOutputDir : String) (apScore : List Bool → List ℚ → ℚ)
    (hasPanoptic : Bool) (b : EvalBatch) : List EvalEv :=
  [EvalEv.toDevice] ++
  (if strIn "loaddet" effOutputDir then b.targetIds.map EvalEv.loadDet else []) ++
  [EvalEv.modelForward] ++
  apLoopTrace apScore b ++
  [EvalEv.plotSave (effOutputDir ++ "/img_" ++ toString b.imageId ++ ".jpg")] ++
  [EvalEv.criterionLoss, EvalEv.meterUpdates, EvalEv.postprocess] ++
  (if strIn "savedet" effOutputDir then b.targetIds.map EvalEv.saveDet else []) ++
  [EvalEv.evaluatorUpdate] ++
  (if hasPanoptic then [EvalEv.panopticUpdate] else [])

/-- The whole-loop trace of `evaluate`, as a function of the
`output_dir` argument: line 105 rebinds it to `'vis'` before any use. -/
def evaluateTrace (output_dir : String) (apScore : List Bool → List ℚ → ℚ)
    (hasPanoptic : Bool) (batches : List EvalBatch) : List EvalEv :=
  let output_dir := "vis"
  (batches.map (evalBatchTrace output_dir apScore hasPanoptic)).flatten

/-! ### The return statement of `evaluate` (engine.py line 310)

`return stats, coco_evaluator` loads the name `stats`.  Python resolves a
loaded name against the function's assigned locals, then the module
globals, then the builtins; a name found nowhere raises `NameError`.
The name sets below are read off `engine.py`. -/

/-- A Python runtime error. -/
inductive PyErr where
  | nameError (n : String)
deriving DecidableEq, Repr

/-- Every name assigned somewhere in the body of `evaluate` (its
parameters included): assignment statements, `for` targets, `with ... as`
targets and the local `import` of line 174.  Comprehension variables have
their own scope in Python 3 and are not function locals.  Every
assignment to `stats` (lines 300-309) is commented out. -/
def evaluateLocalNames : List String :=
  ["model", "criterion", "postprocessors", "data_loader", "base_ds", "device",
   "output_dir", "class_name", "metric_logger", "header", "iou_types",
   "coco_evaluator", "panoptic_evaluator", "samples", "targets",
   "image_filenames", "name", "outputs", "i", "target", "image_id", "loaded",
   "top_k", "indices", "predictied_boxes", "logits", "ax", "image", "boxes",
   "probas", "values", "keep", "gts", "gt_cls", "average_precision_score",
   "ind", "cls_num", "cls_pred", "cls_gt_box", "cls_pred_np", "cls_gt_box_np",
   "sort_indices", "true_positives", "precision", "recall", "ap", "file",
   "aps", "thresholds", "threshold", "loss_dict", "weight_dict",
   "loss_dict_reduced", "loss_dict_reduced_scaled", "loss_dict_reduced_unscaled",
   "orig_target_sizes", "results", "pred_logits", "pred_boxes", "img_h",
   "img_w", "pred_boxes_", "target_sizes", "res", "res_pano", "file_name"]

/-- The module-level names of `engine.py`: its imports (lines 13-35) and
its own function definitions. -/
def engineModuleNames : List String :=
  ["math", "os", "sys", "Iterable", "random", "np", "bbv", "cv2", "argparse",
   "Image", "ImageDraw", "transforms", "matplotlib", "torch", "utils",
   "CocoEvaluator", "VocEvaluator", "PanopticEvaluator", "data_prefetcher",
   "selective_search", "box_xyxy_to_cxcywh", "box_cxcywh_to_xyxy",
   "plot_prediction", "plt", "train_one_epoch", "evaluate", "plot_results",
   "plot_image", "plot_result", "viz", "get_ss_res"]

/-- The Python builtins `engine.py` touches (and some standard ones). -/
def pythonBuiltinNames : List String :=
  ["print", "len", "range", "enumerate", "zip", "sum", "dict", "tuple",
   "str", "int", "float", "list", "set", "open", "max", "min", "type",
   "sorted", "isinstance", "map", "filter", "abs", "round", "any", "all",
   "bool", "iter", "next", "format", "repr", "object", "super", "id",
   "getattr", "setattr", "hasattr", "vars", "Exception", "ValueError",
   "KeyError", "TypeError", "NameError", "StopIteration"]

/-- Python name resolution for a loaded name inside `evaluate`'s body:
local scope, then module globals, then builtins, else `NameError`. -/
def evaluateLoadName (n : String) : Except PyErr Unit :=
  if evaluateLocalNames.contains n then .ok ()
  else if engineModuleNames.contains n then .ok ()
  else if pythonBuiltinNames.contains n then .ok ()
  else .error (.nameError n)

/-- Evaluation of `return stats, coco_evaluator` (line 310): the tuple
display loads its names left to right, and the whole statement raises the
first error. -/
def evaluateReturnStmt : Except PyErr Unit := do
  _ ← evaluateLoadName "stats"
  _ ← evaluateLoadName "coco_evaluator"
  .ok ()

/-- A full run of `evaluate` once the loop over `data_loader` completes:
the loop trace followed by the outcome of the return statement. -/
def evaluateRun (output_dir : String) (apScore : List Bool → List ℚ → ℚ)
    (hasPanoptic : Bool) (batches : List EvalBatch) :
    List EvalEv × Except PyErr Unit :=
  (evaluateTrace output_dir apScore hasPanoptic batches, evaluateReturnStmt)

/-! ### `plot_result` and `viz` (engine.py lines 334-420)

`plot_result` receives the boxes and logits of one image, keeps the
predictions with confidence above 0.01, converts the boxes to corner
format scaled by the (cropped) image size, looks the class labels up in
`class_name` after an increment-and-clamp, and draws one rectangle with
one text label per kept box.  The softmax and the `box_cxcywh_to_xyxy`
conversion are external code (torch, `util/box_ops.py`) and are
parameters `sm` and `toXYXY`. -/

/-- A bounding box: four rational coordinates. -/
structure Box where
  a : ℚ
  b : ℚ
  c : ℚ
  d : ℚ
deriving DecidableEq, Repr, Inhabited

/-- `b * torch.tensor([img_w, img_h, img_w, img_h])` (line 346). -/
def scaleBox (w h : ℚ) (bx : Box) : Box :=
  { a := bx.a * w, b := bx.b * h, c := bx.c * w, d := bx.d * h }

/-- Rectangle colors used by `viz` ('g' for predictions, 'r' for GT). -/
inductive Color where
  | green
  | red
deriving DecidableEq, Repr

/-- One `ax.add_patch(plt.Rectangle(...))` together with the `ax.text`
label of engine.py lines 368-374. -/
structure DrawEv where
  color : Color
  box : Box
  label : Option String
deriving DecidableEq, Repr

/-- The `class_name` dictionary defined identically in `evaluate`
(lines 100-104) and `viz` (lines 378-382). -/
def class_name : List (String × String) :=
  [("0", "N/A"), ("1", "aeroplane"), ("2", "bicycle"), ("3", "bird"),
   ("4", "boat"), ("5", "bottle"), ("6", "bus"), ("7", "car"), ("8", "cat"),
   ("9", "chair"), ("10", "cow"), ("11", "diningtable"), ("12", "dog"),
   ("13", "horse"), ("14", "motorbike"), ("15", "person"),
   ("16", "pottedplant"), ("17", "sheep"), ("18", "sofa"), ("19", "train"),
   ("20", "tvmonitor")]

/-- `x += 1` then `x = torch.clamp(x, max=20)` (lines 356-357, 361-362). -/
def clampLabel (l : ℤ) : ℤ := min (l + 1) 20

/-- Result of `plot_result`: the draw events, the label strings looked up
(`none` marking a KeyError), and the `target_label` tensor as it is after
the call (it is mutated in place in the `not prob_true` branch). -/
structure PlotResultOut where
  draws : List DrawEv
  labelLookups : List (Option String)
  targetLabelAfter : List ℤ
deriving Repr

/-- `plot_result` (engine.py lines 334-374).  `imgW`/`imgH` are the sizes
of the zero-padding-cropped image (the crop itself manipulates external
image data).  The kept mask, the per-box probabilities and classes, the
label lists of both branches and the in-place mutation of `target_label`
follow the source line by line; drawing zips probabilities, kept boxes
and labels, truncating to the shortest as Python `zip` does. -/
def plot_result (sm : List ℚ → List ℚ) (toXYXY : Box → Box) (imgW imgH : ℚ)
    (boxes : List Box) (logits : List (List ℚ)) (c : Color) (prob_true : Bool)
    (classNames : List (String × String)) (target_label : List ℤ) :
    PlotResultOut :=
  let bboxes_scaled0 := boxes.map (fun bx => scaleBox imgW imgH (toXYXY bx))
  let probas := logits.map (fun r => (sm r).dropLast)
  let keep := probas.map (fun r => decide ((1 : ℚ)/100 < rowMax r))
  let keptProbas := maskFilter probas keep
  let prob := keptProbas.map rowMax
  let pred_cls := keptProbas.map rowArgmax
  let labelPairs :=
    if ¬ prob_true then
      target_label.map (fun l => dictGet classNames (toString (clampLabel l)))
    else
      pred_cls.map (fun (l : ℕ) => dictGet classNames (toString (clampLabel (l : ℤ))))
  let targetAfter := if ¬ prob_true then target_label.map clampLabel else target_label
  let keptBoxes := maskFilter bboxes_scaled0 keep
  let draws := ((prob.zip keptBoxes).zip labelPairs).map
      (fun pr => { color := c, box := pr.1.2, label := pr.2 : DrawEv })
  { draws := draws, labelLookups := labelPairs, targetLabelAfter := targetAfter }

/-- Data of one batch as `viz`'s body sees it (first image of the batch):
prediction logits and boxes, ground-truth boxes and labels, image id. -/
structure VizBatch where
  predLogits : List (List ℚ)
  predBoxes : List Box
  gtBoxes : List Box
  gtLabels : List ℤ
  imageId : ℤ
deriving Repr

/-- Result of one iteration of `viz`'s loop: all rectangles drawn on the
shared axes and the path handed to `plt.savefig`. -/
structure VizBatchOut where
  draws : List DrawEv
  savePath : String
deriving Repr

/-- One iteration of `viz`'s loop (engine.py lines 390-420) under the
effective `output_dir`: `top_k = len(targets[0]['boxes'])`; the top-k
prediction indices ranked by descending softmax probability of class 1;
`plot_result` on the selected predictions in green (`prob_true=True`) and
then on the ground truth in red (`prob_true=False`, zero logits of width
4), both receiving `targets[0]['labels']`; finally one `plt.savefig`. -/
def vizBatchRun (effOutputDir : String) (sm : List ℚ → List ℚ)
    (toXYXY : Box → Box) (imgW imgH : ℚ) (b : VizBatch) : VizBatchOut :=
  let top_k := b.gtBoxes.length
  let scores := b.predLogits.map (fun r => (sm r).getD 1 0)
  let indices := (argsortDesc scores).take top_k
  let predictied_boxes := indices.map (fun i => b.predBoxes.getD i default)
  let logits := indices.map (fun i => b.predLogits.getD i [])
  let predOut := plot_result sm toXYXY imgW imgH predictied_boxes logits
      .green true class_name b.gtLabels
  let zeroLogits : List (List ℚ) := List.replicate b.gtBoxes.length (List.replicate 4 0)
  let gtOut := plot_result sm toXYXY imgW imgH b.gtBoxes zeroLogits
      .red false class_name predOut.targetLabelAfter
  { draws := predOut.draws ++ gtOut.draws,
    savePath := effOutputDir ++ "/img_" ++ toString b.imageId ++ ".jpg" }

/-- The loop of `viz` (engine.py lines 377-420) as a function of the
`output_dir` argument: line 383 rebinds it to `'vis'` before any use. -/
def vizRun (output_dir : String) (sm : List ℚ → List ℚ) (toXYXY : Box → Box)
    (imgW imgH : ℚ) (batches : List VizBatch) : List VizBatchOut :=
  let output_dir := "vis"
  batches.map (vizBatchRun output_dir sm toXYXY imgW imgH)

/-! ### Predicates and concrete inputs used by the statements below. -/

/-- The `print(f'AP for class ...')` events among `evaluate`'s actions. -/
def EvalEv.isAPPrint : EvalEv → Bool
  | .apPrint _ _ => true
  | _ => false

/-- The actions of the `'loaddet'`/`'savedet'` branches of `evaluate`. -/
def EvalEv.isDetBranch : EvalEv → Bool
  | .loadDet _ => true
  | .saveDet _ => true
  | _ => false

/-- The seven per-batch operations named by the specification for
`train_one_epoch`: forward pass, criterion loss, finiteness check,
gradient zeroing, backward pass, gradient-norm handling, optimizer
step. -/
def TrainEv.isCoreOp : TrainEv → Bool
  | .forwardPass => true
  | .criterionLoss => true
  | .finCheck => true
  | .zeroGrad => true
  | .backward => true
  | .clipGradNorm _ => true
  | .totalGradNorm => true
  | .optStep => true
  | _ => false

/-- A concrete probability function standing in for the external torch
softmax: each output is positive and sums to 1.  On the marker row
`[0, 0, 0, 9]` it concentrates almost all mass on the last class. -/
def smEx (r : List ℚ) : List ℚ :=
  if r = [0, 0, 0, 9] then [1/400, 1/400, 1/400, 397/400]
  else List.replicate r.length ((1 : ℚ) / (r.length : ℚ))

/-- A concrete stand-in for sklearn's `average_precision_score`. -/
def apScoreZero : List Bool → List ℚ → ℚ := fun _ _ => 0

/-- A concrete batch for `viz`: two ground-truth boxes (so `top_k = 2`),
two predictions, the second of which has confidence at most 0.01 for
every class but the last. -/
def vizBatchEx : VizBatch :=
  { predLogits := [[0, 0, 0, 0], [0, 0, 0, 9]],
    predBoxes := [⟨1, 1, 2, 2⟩, ⟨3, 3, 4, 4⟩],
    gtBoxes := [⟨0, 0, 1, 1⟩, ⟨2, 2, 3, 3⟩],
    gtLabels := [0, 1],
    imageId := 5 }

/-- A concrete batch for `evaluate`: one ground-truth class, no kept
predictions. -/
def evalBatchEx : EvalBatch :=
  { imageId := 7, smRows := [], gtCls := [3], targetIds := [7] }

/-- A concrete batch for `train_one_epoch` with a finite loss. -/
def trainBatchEx : TrainBatch :=
  { lossDict := [("class_error", 2), ("loss_bbox", 3)],
    lossValue := .fin 5, gradNorm := 1 }

/-! ## Helper lemmas -/

/-- Everything one AP-loop round emits is an inline metric action. -/
lemma apEntryTrace_all_inline (name : String) (x : APEntry) :
    ∀ e ∈ apEntryTrace name x, e.isInlineMetric = true := by
  intro e he
  obtain ⟨c, voc, pap⟩ := x
  cases voc with
  | none => simp only [apEntryTrace, List.nil_append, List.mem_singleton] at he; subst he; rfl
  | some v =>
    simp only [apEntryTrace] at he
    split at he
    · rcases List.mem_append.mp he with h | h
      · rw [List.mem_singleton.mp h]; rfl
      · rw [List.mem_singleton.mp h]; rfl
    · rcases List.mem_append.mp he with h | h
      · exact absurd h (List.not_mem_nil e)
      · rw [List.mem_singleton.mp h]; rfl

/-- Every event the per-class AP loop emits is an inline metric action. -/
lemma apLoopTrace_all_inline (ap : List Bool → List ℚ → ℚ) (b : EvalBatch) :
    ∀ e ∈ apLoopTrace ap b, e.isInlineMetric = true := by
  intro e he
  simp only [apLoopTrace, List.mem_flatten, List.mem_map] at he
  obtain ⟨tr, ⟨x, _, rfl⟩, he⟩ := he
  exact apEntryTrace_all_inline _ x e he

/-- An inline metric action is not a load/save-detections action. -/
lemma inline_not_detBranch (e : EvalEv) (h : e.isInlineMetric = true) :
    e.isDetBranch = false := by
  cases e <;> simp_all [EvalEv.isInlineMetric, EvalEv.isDetBranch]

/-- Filtering one AP-loop round for prints leaves exactly its print. -/
lemma apEntryTrace_filter_apPrint (name : String) (x : APEntry) :
    (apEntryTrace name x).filter EvalEv.isAPPrint =
      [EvalEv.apPrint x.cls x.printedAP] := by
  obtain ⟨c, voc, pap⟩ := x
  cases voc with
  | none => rfl
  | some v =>
    simp only [apEntryTrace, List.filter_append]
    split
    · rfl
    · rfl

/-- The AP-print events the per-class loop emits are exactly the printed
entries of `measureAP`, in order: `evaluate` itself computes and reports
one AP per ground-truth-class index per batch. -/
lemma apLoopTrace_filter_apPrint (ap : List Bool → List ℚ → ℚ) (b : EvalBatch) :
    (apLoopTrace ap b).filter EvalEv.isAPPrint =
      (measureAP ap b.smRows b.gtCls).map (fun e => EvalEv.apPrint e.cls e.printedAP) := by
  unfold apLoopTrace
  generalize measureAP ap b.smRows b.gtCls = l
  induction l with
  | nil => rfl
  | cons x xs ih =>
    simp only [List.map_cons, List.flatten_cons, List.filter_append, ih,
      apEntryTrace_filter_apPrint]
    rfl

/-- The loop body of `evaluate` under the effective directory `'vis'`:
the load/save branches are off (`'loaddet'`/`'savedet'` are no substrings
of `'vis'`). -/
lemma evalBatchTrace_vis (ap : List Bool → List ℚ → ℚ) (hp : Bool) (b : EvalBatch) :
    evalBatchTrace "vis" ap hp b =
      [EvalEv.toDevice, EvalEv.modelForward] ++ apLoopTrace ap b ++
      [EvalEv.plotSave ("vis" ++ "/img_" ++ toString b.imageId ++ ".jpg"),
       EvalEv.criterionLoss, EvalEv.meterUpdates, EvalEv.postprocess,
       EvalEv.evaluatorUpdate] ++
      (if hp then [EvalEv.panopticUpdate] else []) := by
  have h1 : strIn "loaddet" "vis" = false := by decide
  have h2 : strIn "savedet" "vis" = false := by decide
  simp [evalBatchTrace, h1, h2]

/-- No event of `evaluate`'s loop body is a load/save-detections action. -/
lemma evalBatchTrace_vis_no_detBranch (ap : List Bool → List ℚ → ℚ)
    (hp : Bool) (b : EvalBatch) :
    ∀ e ∈ evalBatchTrace "vis" ap hp b, e.isDetBranch = false := by
  rw [evalBatchTrace_vis]
  refine List.forall_mem_append.mpr ⟨List.forall_mem_append.mpr
    ⟨List.forall_mem_append.mpr ⟨?_, ?_⟩, ?_⟩, ?_⟩
  · decide
  · intro e he
    exact inline_not_detBranch e (apLoopTrace_all_inline ap b e he)
  · intro e he
    fin_cases he <;> rfl
  · cases hp
    · intro e he
      exact absurd he (List.not_mem_nil e)
    · intro e he
      fin_cases he <;> rfl

/-! ## Claims -/

/-- C9: running `bash.py` executes the fine-tune shell script via
subprocess with the fixed arguments `--resume`,
`exps/DETReg_fine_tune_full_pascal/checkpoint0099.pth`, `--viz`,
followed by exactly the arguments given to `bash.py` on its own command
line, unchanged and in their original order. -/
theorem C9_bash_command_passthrough (args : List String) :
    bashPyRun args =
      { argv := ["./configs/DETReg_fine_tune_full_pascal.sh", "--resume",
                 "exps/DETReg_fine_tune_full_pascal/checkpoint0099.pth",
                 "--viz"] ++ args } ∧
    (command args).take 4 =
      ["./configs/DETReg_fine_tune_full_pascal.sh", "--resume",
       "exps/DETReg_fine_tune_full_pascal/checkpoint0099.pth", "--viz"] ∧
    (command args).drop 4 = args := by
  refine ⟨rfl, ?_, ?_⟩ <;> simp [command]

/-- C2: whenever `evaluate` finishes iterating over the data loader and
reaches `return stats, coco_evaluator`, the load of the name `stats`
raises `NameError` — `stats` is assigned nowhere in the function, is not
a module-level name and is no builtin — so `evaluate` never returns a
stats dictionary. -/
theorem C2_evaluate_return_raises_NameError (output_dir : String)
    (apScore : List Bool → List ℚ → ℚ) (hasPanoptic : Bool)
    (batches : List EvalBatch) :
    (evaluateRun output_dir apScore hasPanoptic batches).2 =
      .error (.nameError "stats") ∧
    evaluateLocalNames.contains "stats" = false ∧
    engineModuleNames.contains "stats" = false ∧
    pythonBuiltinNames.contains "stats" = false := by
  refine ⟨?_, by decide, by decide, by decide⟩
  show evaluateReturnStmt = .error (.nameError "stats")
  rfl

/-- C5: the `output_dir` argument of `evaluate` and of `viz` has no
effect — both rebind it to `'vis'` before any use — and the `loaddet`
and `savedet` branches of `evaluate` can never execute. -/
theorem C5_output_dir_has_no_effect (d1 d2 : String)
    (apScore : List Bool → List ℚ → ℚ) (hasPanoptic : Bool)
    (batches : List EvalBatch) (sm : List ℚ → List ℚ) (toXYXY : Box → Box)
    (imgW imgH : ℚ) (vbatches : List VizBatch) :
    evaluateRun d1 apScore hasPanoptic batches =
      evaluateRun d2 apScore hasPanoptic batches ∧
    vizRun d1 sm toXYXY imgW imgH vbatches =
      vizRun d2 sm toXYXY imgW imgH vbatches ∧
    ∀ e ∈ evaluateTrace d1 apScore hasPanoptic batches, e.isDetBranch = false := by
  refine ⟨rfl, rfl, ?_⟩
  intro e he
  simp only [evaluateTrace, List.mem_flatten, List.mem_map] at he
  obtain ⟨tr, ⟨b, _, rfl⟩, he⟩ := he
  exact evalBatchTrace_vis_no_detBranch apScore hasPanoptic b e he

/-- Every event of the meter-update block is a `meterUpdate`. -/
lemma mem_meterUpdateEvs (wk : List String) (b : TrainBatch) (e : TrainEv)
    (he : e ∈ meterUpdateEvs wk b) : ∃ n, e = TrainEv.meterUpdate n := by
  simp only [meterUpdateEvs, List.mem_append] at he
  rcases he with ((h | h) | h) | h
  · exact ⟨"loss", List.mem_singleton.mp h⟩
  · obtain ⟨p, _, rfl⟩ := List.mem_map.mp h
    exact ⟨p.1, rfl⟩
  · obtain ⟨p, _, rfl⟩ := List.mem_map.mp h
    exact ⟨p.1 ++ "_unscaled", rfl⟩
  · rcases List.mem_cons.mp h with rfl | h
    · exact ⟨"class_error", rfl⟩
    rcases List.mem_cons.mp h with rfl | h
    · exact ⟨"lr", rfl⟩
    rcases List.mem_cons.mp h with rfl | h
    · exact ⟨"grad_norm", rfl⟩
    · exact absurd h (List.not_mem_nil e)

/-- The iteration trace on a finite loss, flattened. -/
lemma trainStepTrace_finite (swav : Bool) (mn : ℚ) (wk : List String)
    (b : TrainBatch) (hf : b.lossValue.isFinite = true) :
    trainStepTrace swav mn wk b =
      [TrainEv.forwardPass] ++ (if swav then [TrainEv.swavForward] else []) ++
      [TrainEv.criterionLoss, TrainEv.reduceDict, TrainEv.finCheck,
       TrainEv.zeroGrad, TrainEv.backward] ++
      (if 0 < mn then [TrainEv.clipGradNorm mn] else [TrainEv.totalGradNorm]) ++
      [TrainEv.optStep] ++ meterUpdateEvs wk b ++ [TrainEv.prefetchNext] := by
  simp [trainStepTrace, hf]

/-- The iteration trace on a non-finite loss, flattened. -/
lemma trainStepTrace_nonfinite (swav : Bool) (mn : ℚ) (wk : List String)
    (b : TrainBatch) (hf : b.lossValue.isFinite = false) :
    trainStepTrace swav mn wk b =
      [TrainEv.forwardPass] ++ (if swav then [TrainEv.swavForward] else []) ++
      [TrainEv.criterionLoss, TrainEv.reduceDict, TrainEv.finCheck,
       TrainEv.printLossMsg b.lossValue, TrainEv.printLossDict,
       TrainEv.sysExit 1] := by
  simp [trainStepTrace, hf]

/-- No meter update is one of the seven core operations. -/
lemma meterUpdateEvs_filter_core (wk : List String) (b : TrainBatch) :
    (meterUpdateEvs wk b).filter TrainEv.isCoreOp = [] := by
  rw [List.filter_eq_nil_iff]
  intro e he
  obtain ⟨n, rfl⟩ := mem_meterUpdateEvs wk b e he
  simp [TrainEv.isCoreOp]

/-- C3 counterexample: on a concrete batch with one ground-truth class,
`evaluate`'s own loop prints an AP value — the trace contains an inline
detection-metric computation not delegated to the evaluator object, so
metric computation is not only a thin wrapper over the evaluator. -/
theorem C3_counterexample_inline_metric_event :
    (evaluateTrace "some_output_dir" apScoreZero false [evalBatchEx]).any
      EvalEv.isInlineMetric = true := by decide

/-- C3 amended: `evaluate` chooses `CocoEvaluator` or `VocEvaluator` by
the dataset type name and feeds it results via `update` once per batch —
detection-metric accumulation across the dataset is delegated — but it
additionally computes and prints its own per-class AP for the first
image of every batch (engine.py lines 165-221). -/
theorem C3_amended_delegation_plus_inline_ap (output_dir dsTypeName : String)
    (apScore : List Bool → List ℚ → ℚ) (hasPanoptic : Bool)
    (batches : List EvalBatch) (b : EvalBatch) (hb : b ∈ batches) :
    chooseEvaluator dsTypeName =
      (if strIn "COCO" dsTypeName then EvaluatorKind.coco else EvaluatorKind.voc) ∧
    EvalEv.evaluatorUpdate ∈ evalBatchTrace "vis" apScore hasPanoptic b ∧
    EvalEv.evaluatorUpdate ∈ evaluateTrace output_dir apScore hasPanoptic batches ∧
    (evalBatchTrace "vis" apScore hasPanoptic b).filter EvalEv.isAPPrint =
      (measureAP apScore b.smRows b.gtCls).map
        (fun e => EvalEv.apPrint e.cls e.printedAP) := by
  have hmem : EvalEv.evaluatorUpdate ∈ evalBatchTrace "vis" apScore hasPanoptic b := by
    rw [evalBatchTrace_vis]
    simp
  refine ⟨rfl, hmem, ?_, ?_⟩
  · simp only [evaluateTrace, List.mem_flatten]
    exact ⟨evalBatchTrace "vis" apScore hasPanoptic b, List.mem_map_of_mem _ hb, hmem⟩
  · rw [evalBatchTrace_vis]
    cases hasPanoptic <;>
      simp [List.filter_append, apLoopTrace_filter_apPrint, EvalEv.isAPPrint]

/-- C3 amended, instantiated at a concrete batch. -/
theorem C3_amended_witness :
    EvalEv.evaluatorUpdate ∈ evaluateTrace "out" apScoreZero false [evalBatchEx] ∧
    (evalBatchTrace "vis" apScoreZero false evalBatchEx).filter EvalEv.isAPPrint =
      (measureAP apScoreZero evalBatchEx.smRows evalBatchEx.gtCls).map
        (fun e => EvalEv.apPrint e.cls e.printedAP) := by
  have h := C3_amended_delegation_plus_inline_ap "out" "VocDetection" apScoreZero
      false [evalBatchEx] evalBatchEx (by simp)
  exact ⟨h.2.2.1, h.2.2.2⟩

/-- C1: when the reduced scaled loss of a batch is not finite, the loop
body of `train_one_epoch` prints the loss and the reduced loss dictionary
and exits the process with status 1; its trace contains no backward pass
and no optimizer step.  When the loss is finite, no exit happens and the
backward pass and optimizer step do run. -/
theorem C1_nonfinite_loss_aborts (swavPresent : Bool) (maxNorm : ℚ)
    (weightKeys : List String) (b : TrainBatch) :
    (b.lossValue.isFinite = false →
      trainStepTrace swavPresent maxNorm weightKeys b =
        [TrainEv.forwardPass] ++
        (if swavPresent then [TrainEv.swavForward] else []) ++
        [TrainEv.criterionLoss, TrainEv.reduceDict, TrainEv.finCheck,
         TrainEv.printLossMsg b.lossValue, TrainEv.printLossDict,
         TrainEv.sysExit 1] ∧
      TrainEv.backward ∉ trainStepTrace swavPresent maxNorm weightKeys b ∧
      TrainEv.optStep ∉ trainStepTrace swavPresent maxNorm weightKeys b) ∧
    (b.lossValue.isFinite = true →
      (∀ c, TrainEv.sysExit c ∉ trainStepTrace swavPresent maxNorm weightKeys b) ∧
      TrainEv.backward ∈ trainStepTrace swavPresent maxNorm weightKeys b ∧
      TrainEv.optStep ∈ trainStepTrace swavPresent maxNorm weightKeys b) := by
  constructor
  · intro hf
    refine ⟨trainStepTrace_nonfinite _ _ _ _ hf, ?_, ?_⟩ <;>
      rw [trainStepTrace_nonfinite _ _ _ _ hf] <;>
      intro hc <;>
      simp only [List.mem_append, List.mem_cons, List.not_mem_nil, or_false,
        List.mem_singleton] at hc <;>
      rcases hc with (h | h) | h <;>
      first
        | simp at h
        | (split at h <;> simp at h)
  · intro hf
    refine ⟨?_, ?_, ?_⟩
    · intro c hc
      rw [trainStepTrace_finite _ _ _ _ hf] at hc
      simp only [List.mem_append] at hc
      rcases hc with ((((((h | h) | h) | h) | h) | h) | h)
      · simp at h
      · split at h <;> simp at h
      · simp at h
      · split at h <;> simp at h
      · simp at h
      · obtain ⟨n, hn⟩ := mem_meterUpdateEvs weightKeys b _ h
        simp at hn
      · simp at h
    · rw [trainStepTrace_finite _ _ _ _ hf]
      simp
    · rw [trainStepTrace_finite _ _ _ _ hf]
      simp

/-- C1, instantiated: a batch with NaN loss aborts without backward or
step; the same batch made finite trains on. -/
theorem C1_witness :
    (trainStepTrace false 0 [] { lossDict := [], lossValue := .nan, gradNorm := 0 } =
      [TrainEv.forwardPass] ++ (if false then [TrainEv.swavForward] else []) ++
      [TrainEv.criterionLoss, TrainEv.reduceDict, TrainEv.finCheck,
       TrainEv.printLossMsg .nan, TrainEv.printLossDict, TrainEv.sysExit 1]) ∧
    TrainEv.backward ∉
      trainStepTrace false 0 [] { lossDict := [], lossValue := .nan, gradNorm := 0 } ∧
    TrainEv.backward ∈ trainStepTrace false 0 [] trainBatchEx := by
  have h1 := (C1_nonfinite_loss_aborts false 0 []
      { lossDict := [], lossValue := .nan, gradNorm := 0 }).1 (by decide)
  have h2 := (C1_nonfinite_loss_aborts false 0 [] trainBatchEx).2 (by decide)
  exact ⟨h1.1, h1.2.1, h2.2.1⟩

/-- C6: on a finite loss, the core per-batch operations of
`train_one_epoch` occur in the order forward pass, criterion loss,
finiteness check, gradient zeroing, backward pass, gradient-norm
handling, optimizer step; gradient clipping happens exactly when
`max_norm > 0`, and otherwise only the total gradient norm is computed. -/
theorem C6_batch_operation_order (swavPresent : Bool) (maxNorm : ℚ)
    (weightKeys : List String) (b : TrainBatch)
    (hf : b.lossValue.isFinite = true) :
    (trainStepTrace swavPresent maxNorm weightKeys b).filter TrainEv.isCoreOp =
      [TrainEv.forwardPass, TrainEv.criterionLoss, TrainEv.finCheck,
       TrainEv.zeroGrad, TrainEv.backward] ++
      (if 0 < maxNorm then [TrainEv.clipGradNorm maxNorm]
       else [TrainEv.totalGradNorm]) ++
      [TrainEv.optStep] ∧
    (TrainEv.clipGradNorm maxNorm ∈ trainStepTrace swavPresent maxNorm weightKeys b
      ↔ 0 < maxNorm) ∧
    (¬ 0 < maxNorm →
      TrainEv.totalGradNorm ∈ trainStepTrace swavPresent maxNorm weightKeys b ∧
      ∀ m : ℚ, TrainEv.clipGradNorm m ∉ trainStepTrace swavPresent maxNorm weightKeys b) := by
  refine ⟨?_, ?_, ?_⟩
  · rw [trainStepTrace_finite _ _ _ _ hf]
    cases swavPresent <;> by_cases hm : (0 : ℚ) < maxNorm <;>
      simp [hm, List.filter_append, meterUpdateEvs_filter_core, TrainEv.isCoreOp]
  · constructor
    · intro hc
      rw [trainStepTrace_finite _ _ _ _ hf] at hc
      simp only [List.mem_append] at hc
      rcases hc with ((((((h | h) | h) | h) | h) | h) | h)
      · simp at h
      · split at h <;> simp at h
      · simp at h
      · split at h
        · assumption
        · simp at h
      · simp at h
      · obtain ⟨n, hn⟩ := mem_meterUpdateEvs weightKeys b _ h
        simp at hn
      · simp at h
    · intro hm
      rw [trainStepTrace_finite _ _ _ _ hf]
      simp [hm]
  · intro hm
    constructor
    · rw [trainStepTrace_finite _ _ _ _ hf]
      simp [hm]
    · intro m hc
      rw [trainStepTrace_finite _ _ _ _ hf] at hc
      simp only [List.mem_append] at hc
      rcases hc with ((((((h | h) | h) | h) | h) | h) | h)
      · simp at h
      · split at h <;> simp at h
      · simp at h
      · split at h
        · exact absurd (by assumption) hm
        · simp at h
      · simp at h
      · obtain ⟨n, hn⟩ := mem_meterUpdateEvs weightKeys b _ h
        simp at hn
      · simp at h

/-- C6, instantiated at a finite-loss batch for both clipping regimes. -/
theorem C6_witness :
    (trainStepTrace false 2 ["class_error"] trainBatchEx).filter TrainEv.isCoreOp =
      [TrainEv.forwardPass, TrainEv.criterionLoss, TrainEv.finCheck,
       TrainEv.zeroGrad, TrainEv.backward, TrainEv.clipGradNorm 2,
       TrainEv.optStep] ∧
    TrainEv.totalGradNorm ∈ trainStepTrace false 0 ["class_error"] trainBatchEx := by
  have h1 := (C6_batch_operation_order false 2 ["class_error"] trainBatchEx (by decide)).1
  have h2 := ((C6_batch_operation_order false 0 ["class_error"] trainBatchEx (by decide)).2.2
      (by norm_num)).1
  rw [h1]
  exact ⟨by norm_num, h2⟩

/-- `update` keeps the meter-name list, or appends the new name. -/
lemma MetricLogger.names_update (ml : MetricLogger) (k : String) (v : ℚ) :
    (ml.update k v).names =
      if ml.meters.any (fun p => p.1 == k) then ml.names else ml.names ++ [k] := by
  unfold MetricLogger.update MetricLogger.names
  split
  · simp only [List.map_map]
    apply List.map_congr_left
    intro p _
    dsimp only [Function.comp]
    split <;> rfl
  · simp

/-- `update` never removes a registered meter name. -/
lemma MetricLogger.names_update_mono (ml : MetricLogger) (k : String) (v : ℚ)
    (n : String) (h : n ∈ ml.names) : n ∈ (ml.update k v).names := by
  rw [MetricLogger.names_update]
  split
  · exact h
  · exact List.mem_append_left _ h

/-- After `update k v` the meter `k` is registered. -/
lemma MetricLogger.mem_names_update_self (ml : MetricLogger) (k : String) (v : ℚ) :
    k ∈ (ml.update k v).names := by
  rw [MetricLogger.names_update]
  split
  · next h =>
    obtain ⟨p, hp, he⟩ := List.any_eq_true.mp h
    have : p.1 = k := by simpa using he
    exact this ▸ List.mem_map_of_mem _ hp
  · exact List.mem_append_right _ (List.mem_singleton.mpr rfl)

/-- A fold of `update`s never removes a registered meter name. -/
lemma names_foldl_update_mono {α : Type} (key : α → String) (val : α → ℚ) :
    ∀ (l : List α) (ml : MetricLogger) (n : String), n ∈ ml.names →
      n ∈ (l.foldl (fun acc a => acc.update (key a) (val a)) ml).names
  | [], _, _, h => h
  | a :: l, ml, n, h =>
    names_foldl_update_mono key val l _ n (ml.names_update_mono (key a) (val a) n h)

/-- The per-batch meter updates never remove a registered meter name. -/
lemma applyMeterUpdates_names_mono (wd : List (String × ℚ)) (lr : ℚ)
    (ml : MetricLogger) (b : TrainBatch) (n : String) (h : n ∈ ml.names) :
    n ∈ (applyMeterUpdates wd lr ml b).names := by
  unfold applyMeterUpdates
  refine MetricLogger.names_update_mono _ _ _ _
    (MetricLogger.names_update_mono _ _ _ _
      (MetricLogger.names_update_mono _ _ _ _
        (names_foldl_update_mono (fun (p : String × ℚ) => p.1 ++ "_unscaled") (fun (p : String × ℚ) => p.2) _ _ _
          (names_foldl_update_mono (fun (p : String × ℚ) => p.1) (fun (p : String × ℚ) => p.2 * qDictGetD wd p.1 0) _ _ _
            (MetricLogger.names_update_mono _ _ _ _ h)))))

/-- The per-batch meter updates register the `loss` meter. -/
lemma applyMeterUpdates_loss_mem (wd : List (String × ℚ)) (lr : ℚ)
    (ml : MetricLogger) (b : TrainBatch) :
    "loss" ∈ (applyMeterUpdates wd lr ml b).names := by
  unfold applyMeterUpdates
  refine MetricLogger.names_update_mono _ _ _ _
    (MetricLogger.names_update_mono _ _ _ _
      (MetricLogger.names_update_mono _ _ _ _
        (names_foldl_update_mono (fun (p : String × ℚ) => p.1 ++ "_unscaled") (fun (p : String × ℚ) => p.2) _ _ _
          (names_foldl_update_mono (fun (p : String × ℚ) => p.1) (fun (p : String × ℚ) => p.2 * qDictGetD wd p.1 0) _ _ _
            (MetricLogger.mem_names_update_self _ _ _)))))

/-- Fetch, iteration and exit bookkeeping of the loop when all losses are
finite: one iteration and one end-of-iteration fetch per batch, no exit. -/
lemma trainLoop_counts (swav : Bool) (mn : ℚ) (wd : List (String × ℚ)) (lr : ℚ) :
    ∀ (bs : List TrainBatch) (st : EpochState),
      (∀ b ∈ bs, b.lossValue.isFinite = true) →
      (trainLoop swav mn wd lr bs st).fetches = st.fetches + bs.length ∧
      (trainLoop swav mn wd lr bs st).iters = st.iters + bs.length ∧
      (st.exited = false → (trainLoop swav mn wd lr bs st).exited = false) := by
  intro bs
  induction bs with
  | nil => intro st _; exact ⟨rfl, rfl, fun h => h⟩
  | cons b rest ih =>
    intro st hfin
    have hb : b.lossValue.isFinite = true := hfin b (List.mem_cons_self b rest)
    have hrest : ∀ x ∈ rest, x.lossValue.isFinite = true :=
      fun x hx => hfin x (List.mem_cons_of_mem b hx)
    simp only [trainLoop, hb, if_true]
    obtain ⟨h1, h2, h3⟩ := ih _ hrest
    refine ⟨?_, ?_, fun _ => h3 rfl⟩
    · rw [h1]; simp [List.length_cons]; ring
    · rw [h2]; simp [List.length_cons]; ring

/-- The loop never removes a registered meter name. -/
lemma trainLoop_names_mono (swav : Bool) (mn : ℚ) (wd : List (String × ℚ)) (lr : ℚ) :
    ∀ (bs : List TrainBatch) (st : EpochState) (n : String),
      n ∈ st.logger.names →
      n ∈ (trainLoop swav mn wd lr bs st).logger.names := by
  intro bs
  induction bs with
  | nil => intro st n h; exact h
  | cons b rest ih =>
    intro st n h
    by_cases hb : b.lossValue.isFinite = true
    · simp only [trainLoop, hb, if_true]
      exact ih _ n (applyMeterUpdates_names_mono wd lr st.logger b n h)
    · have hb2 : b.lossValue.isFinite = false := by simpa using hb
      simp only [trainLoop, hb2, Bool.false_eq_true, if_false]
      exact h

/-- After at least one finite-loss batch the `loss` meter exists. -/
lemma trainLoop_loss_mem (swav : Bool) (mn : ℚ) (wd : List (String × ℚ)) (lr : ℚ)
    (b : TrainBatch) (rest : List TrainBatch) (st : EpochState)
    (hb : b.lossValue.isFinite = true) :
    "loss" ∈ (trainLoop swav mn wd lr (b :: rest) st).logger.names := by
  simp only [trainLoop, hb, if_true]
  exact trainLoop_names_mono swav mn wd lr rest _ "loss"
    (applyMeterUpdates_loss_mem wd lr st.logger b)

/-- `train_one_epoch`, with its initial state spelled out. -/
lemma train_one_epoch_eq (swav : Bool) (mn : ℚ) (wd : List (String × ℚ)) (lr : ℚ)
    (bs : List TrainBatch) :
    train_one_epoch swav mn wd lr bs =
      (trainLoop swav mn wd lr bs
        { trace := [TrainEv.prefetchNext],
          logger := { meters := [("lr", { total := 0, count := 0 }),
                                 ("class_error", { total := 0, count := 0 }),
                                 ("grad_norm", { total := 0, count := 0 })] },
          fetches := 1, iters := 0, exited := false },
       if (trainLoop swav mn wd lr bs
            { trace := [TrainEv.prefetchNext],
              logger := { meters := [("lr", { total := 0, count := 0 }),
                                     ("class_error", { total := 0, count := 0 }),
                                     ("grad_norm", { total := 0, count := 0 })] },
              fetches := 1, iters := 0, exited := false }).exited then none
       else some ((trainLoop swav mn wd lr bs
            { trace := [TrainEv.prefetchNext],
              logger := { meters := [("lr", { total := 0, count := 0 }),
                                     ("class_error", { total := 0, count := 0 }),
                                     ("grad_norm", { total := 0, count := 0 })] },
              fetches := 1, iters := 0, exited := false }).logger.meters.map
              (fun p => (p.1, p.2.globalAvg)))) := rfl

/-- C7: with every loss finite, `train_one_epoch` runs exactly one
iteration per batch — `len(data_loader)` iterations in all — calls the
prefetcher once before the loop and once at the end of each iteration,
and returns the dictionary mapping every tracked meter name, `lr`,
`class_error`, `grad_norm` and `loss` included, to that meter's global
average. -/
theorem C7_one_iteration_per_batch (swavPresent : Bool) (maxNorm : ℚ)
    (weightDict : List (String × ℚ)) (lr : ℚ) (batches : List TrainBatch)
    (hne : batches ≠ [])
    (hfin : ∀ b ∈ batches, b.lossValue.isFinite = true) :
    (train_one_epoch swavPresent maxNorm weightDict lr batches).1.iters =
      batches.length ∧
    (train_one_epoch swavPresent maxNorm weightDict lr batches).1.fetches =
      1 + batches.length ∧
    ∃ stats, (train_one_epoch swavPresent maxNorm weightDict lr batches).2 =
        some stats ∧
      stats = (train_one_epoch swavPresent maxNorm weightDict lr
          batches).1.logger.meters.map (fun p => (p.1, p.2.globalAvg)) ∧
      ∀ nm ∈ ["lr", "class_error", "grad_norm", "loss"],
        nm ∈ stats.map (·.1) := by
  rw [train_one_epoch_eq]
  obtain ⟨h1, h2, h3⟩ := trainLoop_counts swavPresent maxNorm weightDict lr batches _ hfin
  have hex : (trainLoop swavPresent maxNorm weightDict lr batches
      { trace := [TrainEv.prefetchNext],
        logger := { meters := [("lr", { total := 0, count := 0 }),
                               ("class_error", { total := 0, count := 0 }),
                               ("grad_norm", { total := 0, count := 0 })] },
        fetches := 1, iters := 0, exited := false }).exited = false := h3 rfl
  refine ⟨by rw [h2]; simp, by rw [h1], ?_⟩
  rw [hex]
  refine ⟨_, rfl, rfl, ?_⟩
  intro nm hnm
  rw [List.map_map]
  have hnames : ∀ x, x ∈ (trainLoop swavPresent maxNorm weightDict lr batches
      { trace := [TrainEv.prefetchNext],
        logger := { meters := [("lr", { total := 0, count := 0 }),
                               ("class_error", { total := 0, count := 0 }),
                               ("grad_norm", { total := 0, count := 0 })] },
        fetches := 1, iters := 0, exited := false }).logger.names →
      x ∈ (trainLoop swavPresent maxNorm weightDict lr batches
      { trace := [TrainEv.prefetchNext],
        logger := { meters := [("lr", { total := 0, count := 0 }),
                               ("class_error", { total := 0, count := 0 }),
                               ("grad_norm", { total := 0, count := 0 })] },
        fetches := 1, iters := 0, exited := false }).logger.meters.map
        (fun p => ((fun q => (q.1, q.2.globalAvg)) p).1) := by
    intro x hx
    simpa [MetricLogger.names] using hx
  apply hnames
  simp only [List.mem_cons, List.not_mem_nil, or_false] at hnm
  rcases hnm with rfl | rfl | rfl | rfl
  · exact trainLoop_names_mono _ _ _ _ _ _ _ (by simp [MetricLogger.names])
  · exact trainLoop_names_mono _ _ _ _ _ _ _ (by simp [MetricLogger.names])
  · exact trainLoop_names_mono _ _ _ _ _ _ _ (by simp [MetricLogger.names])
  · cases batches with
    | nil => exact absurd rfl hne
    | cons b rest =>
      exact trainLoop_loss_mem _ _ _ _ b rest _
        (hfin b (List.mem_cons_self b rest))

/-- C7, instantiated at a one-batch loader with a finite loss. -/
theorem C7_witness :
    (train_one_epoch false 0 [("class_error", 1)] 1 [trainBatchEx]).1.iters = 1 ∧
    (train_one_epoch false 0 [("class_error", 1)] 1 [trainBatchEx]).1.fetches = 2 ∧
    ∃ stats, (train_one_epoch false 0 [("class_error", 1)] 1 [trainBatchEx]).2 =
        some stats ∧
      stats = (train_one_epoch false 0 [("class_error", 1)] 1
          [trainBatchEx]).1.logger.meters.map (fun p => (p.1, p.2.globalAvg)) ∧
      ∀ nm ∈ ["lr", "class_error", "grad_norm", "loss"], nm ∈ stats.map (·.1) := by
  have h := C7_one_iteration_per_batch false 0 [("class_error", 1)] 1 [trainBatchEx]
      (by simp) (by decide)
  exact ⟨h.1, h.2.1, h.2.2⟩

/-- `getD` on a mapped range evaluates the function. -/
lemma getD_map_range {α : Type} (f : ℕ → α) (n ind : ℕ) (h : ind < n) (d : α) :
    ((List.range n).map f).getD ind d = f ind := by
  rw [List.getD_eq_getElem?_getD, List.getElem?_map, List.getElem?_range h]
  rfl

/-- C4: for every batch, `evaluate` computes per-class AP over the first
image's predictions kept at confidence above 0.01; the loop has one
round per unique ground-truth class (reading `gt_cls[ind]`); each round
computes a VOC-style AP whose true positives are the predictions with
score above 0.5, and an MS-COCO-style AP that averages the AP over the
101 equally spaced thresholds 0, 0.01, ..., 1; a class with no matching
predictions is reported with AP 0. -/
theorem C4_per_class_average_precision (apScore : List Bool → List ℚ → ℚ)
    (smRows : List (List ℚ)) (gtCls : List ℤ) (ind : ℕ)
    (hind : ind < (measureAP apScore smRows gtCls).length) :
    (measureAP apScore smRows gtCls).length = gtCls.eraseDups.length ∧
    (measureAP apScore smRows gtCls).getD ind default =
      measureAPEntry apScore (keptPredictions smRows) gtCls ind ∧
    keptPredictions smRows =
      (((smRows.map List.dropLast).map rowMax).zip
        ((smRows.map List.dropLast).map rowArgmax)).filter
        (fun p => decide ((1 : ℚ)/100 < p.1)) ∧
    (measureAPEntry apScore (keptPredictions smRows) gtCls ind).cls =
      gtCls.getD ind 0 ∧
    (classPreds (keptPredictions smRows) (gtCls.getD ind 0) = [] →
      measureAPEntry apScore (keptPredictions smRows) gtCls ind =
        { cls := gtCls.getD ind 0, vocAP := none, printedAP := 0 }) ∧
    (classPreds (keptPredictions smRows) (gtCls.getD ind 0) ≠ [] →
      (measureAPEntry apScore (keptPredictions smRows) gtCls ind).vocAP =
        some (apScore
          (((classPreds (keptPredictions smRows) (gtCls.getD ind 0)).insertionSort
              (fun a b => b ≤ a)).map (fun p => decide ((1 : ℚ)/2 < p)))
          (precisionList
            (((classPreds (keptPredictions smRows) (gtCls.getD ind 0)).insertionSort
                (fun a b => b ≤ a)).map (fun p => decide ((1 : ℚ)/2 < p))))) ∧
      (measureAPEntry apScore (keptPredictions smRows) gtCls ind).printedAP =
        ((List.range 101).map (fun (i : ℕ) => apAtThreshold apScore
            ((classPreds (keptPredictions smRows) (gtCls.getD ind 0)).insertionSort
              (fun a b => b ≤ a)) ((i : ℚ) / 100))).sum / 101) ∧
    thresholds.length = 101 ∧
    (∀ i : ℕ, i < 101 → thresholds.getD i 0 = (i : ℚ) / 100) := by
  have hlen : (measureAP apScore smRows gtCls).length = gtCls.eraseDups.length := by
    simp [measureAP]
  have hind2 : ind < gtCls.eraseDups.length := hlen ▸ hind
  refine ⟨hlen, ?_, rfl, ?_, ?_, ?_, by simp [thresholds], ?_⟩
  · unfold measureAP
    exact getD_map_range _ _ _ hind2 _
  · simp only [measureAPEntry]
    split <;> rfl
  · intro h
    have hemp : (classPreds (keptPredictions smRows) (gtCls.getD ind 0)).isEmpty = true := by
      rw [h]; rfl
    simp only [measureAPEntry]
    rw [if_pos hemp]
  · intro h
    have hemp : (classPreds (keptPredictions smRows) (gtCls.getD ind 0)).isEmpty = false := by
      cases hcp : classPreds (keptPredictions smRows) (gtCls.getD ind 0)
      · exact absurd hcp h
      · rfl
    have hne : ¬ ((classPreds (keptPredictions smRows) (gtCls.getD ind 0)).isEmpty = true) := by
      rw [hemp]; exact Bool.false_ne_true
    constructor
    · simp only [measureAPEntry]
      rw [if_neg hne]
    · simp only [measureAPEntry]
      rw [if_neg hne]
      simp only [thresholds, List.map_map, List.length_map, List.length_range]
      norm_num [Function.comp_def]
  · intro i hi
    simp only [thresholds]
    rw [getD_map_range _ _ _ hi]

/-- C4, instantiated: one ground-truth class and no predictions. -/
theorem C4_witness :
    0 < (measureAP apScoreZero [] [5]).length ∧
    (measureAP apScoreZero [] [5]).length = ([5] : List ℤ).eraseDups.length ∧
    (measureAPEntry apScoreZero (keptPredictions []) [5] 0).cls = (5 : ℤ) := by
  have h := C4_per_class_average_precision apScoreZero [] [5] 0 (by decide)
  refine ⟨by decide, h.1, ?_⟩
  rw [h.2.2.2.1]
  decide

/-- The labels `plot_result` looks up, by branch. -/
lemma plot_result_labelLookups (sm : List ℚ → List ℚ) (toXYXY : Box → Box)
    (imgW imgH : ℚ) (boxes : List Box) (logits : List (List ℚ)) (c : Color)
    (pt : Bool) (cn : List (String × String)) (tl : List ℤ) :
    (plot_result sm toXYXY imgW imgH boxes logits c pt cn tl).labelLookups =
      if ¬ pt then tl.map (fun l => dictGet cn (toString (clampLabel l)))
      else ((maskFilter (logits.map (fun r => (sm r).dropLast))
          ((logits.map (fun r => (sm r).dropLast)).map
            (fun r => decide ((1 : ℚ)/100 < rowMax r)))).map rowArgmax).map
          (fun (l : ℕ) => dictGet cn (toString (clampLabel (l : ℤ)))) := rfl

/-- The ground-truth label list after `plot_result`, by branch. -/
lemma plot_result_targetAfter (sm : List ℚ → List ℚ) (toXYXY : Box → Box)
    (imgW imgH : ℚ) (boxes : List Box) (logits : List (List ℚ)) (c : Color)
    (pt : Bool) (cn : List (String × String)) (tl : List ℤ) :
    (plot_result sm toXYXY imgW imgH boxes logits c pt cn tl).targetLabelAfter =
      if ¬ pt then tl.map clampLabel else tl := rfl

/-- Looking up any key `'1'` .. `'20'` in `class_name` succeeds. -/
lemma class_name_lookup_in_range (k : ℤ) (h1 : 1 ≤ k) (h2 : k ≤ 20) :
    (dictGet class_name (toString k)).isSome = true := by
  interval_cases k <;> decide

/-- A nonnegative label, incremented and clamped, lands in 1..20. -/
lemma clampLabel_bounds (l : ℤ) (h : 0 ≤ l) :
    1 ≤ clampLabel l ∧ clampLabel l ≤ 20 := by
  unfold clampLabel
  constructor
  · exact le_min (by omega) (by norm_num)
  · exact min_le_right _ _

/-- C10: in `plot_result`, for every class index drawn — a predicted
class in the `prob_true` branch, a ground-truth label otherwise — the
index is incremented by 1 and clamped to at most 20 before the
`class_name` lookup, so the lookup always succeeds for nonnegative
indices and no KeyError is raised; and the ground-truth label list is
mutated in place by this increment-and-clamp in the non-`prob_true`
branch. -/
theorem C10_label_lookup_safe (sm : List ℚ → List ℚ) (toXYXY : Box → Box)
    (imgW imgH : ℚ) (boxes : List Box) (logits : List (List ℚ)) (c : Color)
    (prob_true : Bool) (target_label : List ℤ)
    (hnn : ∀ l ∈ target_label, 0 ≤ l) :
    (∀ s ∈ (plot_result sm toXYXY imgW imgH boxes logits c prob_true
        class_name target_label).labelLookups, s.isSome = true) ∧
    (plot_result sm toXYXY imgW imgH boxes logits c prob_true class_name
        target_label).targetLabelAfter =
      (if prob_true = true then target_label else target_label.map clampLabel) ∧
    (∀ l : ℤ, 0 ≤ l → 1 ≤ clampLabel l ∧ clampLabel l ≤ 20 ∧
      (dictGet class_name (toString (clampLabel l))).isSome = true) := by
  refine ⟨?_, ?_, ?_⟩
  · rw [plot_result_labelLookups]
    cases prob_true
    · rw [if_pos (by simp)]
      intro s hs
      obtain ⟨l, hl, rfl⟩ := List.mem_map.mp hs
      obtain ⟨hb1, hb2⟩ := clampLabel_bounds l (hnn l hl)
      exact class_name_lookup_in_range _ hb1 hb2
    · rw [if_neg (by simp)]
      intro s hs
      obtain ⟨l, hl, rfl⟩ := List.mem_map.mp hs
      obtain ⟨hb1, hb2⟩ := clampLabel_bounds (l : ℤ) (Int.ofNat_nonneg l)
      exact class_name_lookup_in_range _ hb1 hb2
  · rw [plot_result_targetAfter]
    cases prob_true <;> simp
  · intro l hl
    obtain ⟨hb1, hb2⟩ := clampLabel_bounds l hl
    exact ⟨hb1, hb2, class_name_lookup_in_range _ hb1 hb2⟩

/-- C10, instantiated: the lookups succeed on labels 0 and 25; label 0
becomes key 1, label 25 is clamped to key 20, and the label list is
mutated accordingly. -/
theorem C10_witness :
    (∀ s ∈ (plot_result smEx (fun bx => bx) 1 1 [{ a := 0, b := 0, c := 1, d := 1 }]
        [[0, 0, 0, 0]] Color.red false class_name [0, 25]).labelLookups,
      s.isSome = true) ∧
    (plot_result smEx (fun bx => bx) 1 1 [{ a := 0, b := 0, c := 1, d := 1 }]
        [[0, 0, 0, 0]] Color.red false class_name [0, 25]).targetLabelAfter =
      [1, 20] := by
  have h := C10_label_lookup_safe smEx (fun bx => bx) 1 1
      [{ a := 0, b := 0, c := 1, d := 1 }] [[0, 0, 0, 0]] Color.red false
      [0, 25] (by decide)
  refine ⟨h.1, ?_⟩
  rw [h.2.1]
  decide

/-- Mask filters of same-length lists under one mask keep equally many. -/
lemma maskFilter_length_eq {α β : Type} :
    ∀ (mask : List Bool) (xs : List α) (ys : List β),
      xs.length = mask.length → ys.length = mask.length →
      (maskFilter xs mask).length = (maskFilter ys mask).length
  | [], xs, ys, hx, hy => by
    cases xs
    · cases ys
      · rfl
      · simp at hy
    · simp at hx
  | m :: mask, [], ys, hx, hy => by simp at hx
  | m :: mask, x :: xs, [], hx, hy => by simp at hy
  | m :: mask, x :: xs, y :: ys, hx, hy => by
    have hx2 : xs.length = mask.length := by simpa using hx
    have hy2 : ys.length = mask.length := by simpa using hy
    cases m <;>
      simp [maskFilter, List.zip_cons_cons, List.filter_cons] <;>
      simpa [maskFilter] using maskFilter_length_eq mask xs ys hx2 hy2

/-- An all-true mask keeps everything. -/
lemma maskFilter_true {α : Type} :
    ∀ (xs : List α) (n : ℕ), xs.length = n →
      maskFilter xs (List.replicate n true) = xs
  | [], 0, _ => rfl
  | [], Nat.succ n, hx => by simp at hx
  | x :: xs, 0, hx => by simp at hx
  | x :: xs, Nat.succ n, hx => by
    have hx2 : xs.length = n := by simpa using hx
    simp only [List.replicate_succ, maskFilter, List.zip_cons_cons,
      List.filter_cons, List.map_cons]
    simpa [maskFilter] using maskFilter_true xs n hx2

/-- Projecting the middle of a double zip returns the middle list when
the lengths agree. -/
lemma zip3_map_mid {α β γ : Type} :
    ∀ (ys : List β) (xs : List α) (zs : List γ),
      xs.length = ys.length → zs.length = ys.length →
      (((xs.zip ys).zip zs).map (fun p => p.1.2)) = ys
  | [], xs, zs, hx, _ => by
    cases xs
    · rfl
    · simp at hx
  | y :: ys, [], zs, hx, hz => by simp at hx
  | y :: ys, x :: xs, [], hx, hz => by simp at hz
  | y :: ys, x :: xs, z :: zs, hx, hz => by
    have hx2 : xs.length = ys.length := by simpa using hx
    have hz2 : zs.length = ys.length := by simpa using hz
    simp only [List.zip_cons_cons, List.map_cons]
    rw [zip3_map_mid ys xs zs hx2 hz2]

/-- The rectangles `plot_result` draws, zipped from confidences, kept
boxes and labels. -/
lemma plot_result_draws (sm : List ℚ → List ℚ) (toXYXY : Box → Box)
    (imgW imgH : ℚ) (boxes : List Box) (logits : List (List ℚ)) (c : Color)
    (pt : Bool) (cn : List (String × String)) (tl : List ℤ) :
    (plot_result sm toXYXY imgW imgH boxes logits c pt cn tl).draws =
      ((((maskFilter (logits.map (fun r => (sm r).dropLast))
            ((logits.map (fun r => (sm r).dropLast)).map
              (fun r => decide ((1 : ℚ)/100 < rowMax r)))).map rowMax).zip
          (maskFilter (boxes.map (fun bx => scaleBox imgW imgH (toXYXY bx)))
            ((logits.map (fun r => (sm r).dropLast)).map
              (fun r => decide ((1 : ℚ)/100 < rowMax r))))).zip
        (plot_result sm toXYXY imgW imgH boxes logits c pt cn tl).labelLookups).map
        (fun pr => { color := c, box := pr.1.2, label := pr.2 }) := rfl

/-- Every rectangle `plot_result` draws has the color it was given. -/
lemma plot_result_draws_color (sm : List ℚ → List ℚ) (toXYXY : Box → Box)
    (imgW imgH : ℚ) (boxes : List Box) (logits : List (List ℚ)) (c : Color)
    (pt : Bool) (cn : List (String × String)) (tl : List ℤ) :
    ∀ e ∈ (plot_result sm toXYXY imgW imgH boxes logits c pt cn tl).draws,
      e.color = c := by
  rw [plot_result_draws]
  intro e he
  obtain ⟨pr, -, rfl⟩ := List.mem_map.mp he
  rfl

/-- The boxes `plot_result` draws are exactly the input boxes (scaled to
corner format) that pass the 0.01 keep mask, provided enough labels. -/
lemma plot_result_map_box (sm : List ℚ → List ℚ) (toXYXY : Box → Box)
    (imgW imgH : ℚ) (boxes : List Box) (logits : List (List ℚ)) (c : Color)
    (pt : Bool) (cn : List (String × String)) (tl : List ℤ)
    (hbl : boxes.length = logits.length)
    (hlab : (plot_result sm toXYXY imgW imgH boxes logits c pt cn
        tl).labelLookups.length =
      (maskFilter (logits.map (fun r => (sm r).dropLast))
        ((logits.map (fun r => (sm r).dropLast)).map
          (fun r => decide ((1 : ℚ)/100 < rowMax r)))).length) :
    (plot_result sm toXYXY imgW imgH boxes logits c pt cn tl).draws.map
        (fun e => e.box) =
      maskFilter (boxes.map (fun bx => scaleBox imgW imgH (toXYXY bx)))
        ((logits.map (fun r => (sm r).dropLast)).map
          (fun r => decide ((1 : ℚ)/100 < rowMax r))) := by
  have hmeq : (maskFilter (logits.map (fun r => (sm r).dropLast))
        ((logits.map (fun r => (sm r).dropLast)).map
          (fun r => decide ((1 : ℚ)/100 < rowMax r)))).length =
      (maskFilter (boxes.map (fun bx => scaleBox imgW imgH (toXYXY bx)))
        ((logits.map (fun r => (sm r).dropLast)).map
          (fun r => decide ((1 : ℚ)/100 < rowMax r)))).length :=
    maskFilter_length_eq _ _ _ (by simp) (by simp [hbl])
  rw [plot_result_draws, List.map_map]
  exact zip3_map_mid _ _ _ (by simpa using hmeq) (hlab.trans hmeq)

/-- The first `k` indices `torch.sort(descending=True)` produces carry
descending scores. -/
lemma argsortDesc_take_sorted (s : List ℚ) (k : ℕ) :
    ((((argsortDesc s).take k).map (fun i => s.getD i 0)).Sorted
      (fun x y => y ≤ x)) := by
  have hs : (argsortDesc s).Pairwise (fun i j => s.getD j 0 ≤ s.getD i 0) := by
    haveI h1 : IsTotal ℕ (fun i j => s.getD j 0 ≤ s.getD i 0) :=
      ⟨fun a b => le_total _ _⟩
    haveI h2 : IsTrans ℕ (fun i j => s.getD j 0 ≤ s.getD i 0) :=
      ⟨fun a b c hab hbc => le_trans hbc hab⟩
    exact List.sorted_insertionSort _ _
  have ht : ((argsortDesc s).take k).Pairwise (fun i j => s.getD j 0 ≤ s.getD i 0) :=
    List.Pairwise.sublist (List.take_sublist k (argsortDesc s)) hs
  exact List.pairwise_map.mpr ht

/-- `argsortDesc` returns one index per score. -/
lemma argsortDesc_length (s : List ℚ) : (argsortDesc s).length = s.length := by
  simp [argsortDesc, List.length_insertionSort]

/-- `vizBatchRun`, with the selection spelled out: green `plot_result` on
the top-k predictions, red `plot_result` on the ground truth. -/
lemma vizBatchRun_eq (eff : String) (sm : List ℚ → List ℚ) (toXYXY : Box → Box)
    (imgW imgH : ℚ) (b : VizBatch) :
    vizBatchRun eff sm toXYXY imgW imgH b =
      { draws :=
          (plot_result sm toXYXY imgW imgH
            (((argsortDesc (b.predLogits.map (fun r => (sm r).getD 1 0))).take
                b.gtBoxes.length).map (fun i => b.predBoxes.getD i default))
            (((argsortDesc (b.predLogits.map (fun r => (sm r).getD 1 0))).take
                b.gtBoxes.length).map (fun i => b.predLogits.getD i []))
            .green true class_name b.gtLabels).draws ++
          (plot_result sm toXYXY imgW imgH b.gtBoxes
            (List.replicate b.gtBoxes.length (List.replicate 4 0))
            .red false class_name b.gtLabels).draws,
        savePath := eff ++ "/img_" ++ toString b.imageId ++ ".jpg" } := rfl

/-- C8 counterexample: a batch with two ground-truth boxes (`top_k = 2`)
and two predictions, both selected, where the second selected prediction
has every class probability but the last at most 0.01: only one of the
two selected boxes is drawn in green, so `viz` does not draw all `top_k`
selected boxes.  The stand-in softmax output on the offending row is a
genuine probability vector (positive, summing to 1). -/
theorem C8_counterexample :
    ((argsortDesc (vizBatchEx.predLogits.map (fun r => (smEx r).getD 1 0))).take
        vizBatchEx.gtBoxes.length).length = 2 ∧
    ((vizBatchRun "vis" smEx (fun bx => bx) 1 1 vizBatchEx).draws.filter
        (fun e => decide (e.color = Color.green))).length = 1 ∧
    (smEx [0, 0, 0, 9]).sum = 1 ∧
    ((smEx [0, 0, 0, 9]).all (fun x => decide (0 < x))) = true := by
  have h0 : smEx [0, 0, 0, 0] = List.replicate 4 ((1 : ℚ)/4) := by
    norm_num [smEx, List.replicate]
  have hA : smEx [(0 : ℚ), 0, 0, 9] = [1/400, 1/400, 1/400, 397/400] := by
    simp [smEx]
  have hsort : argsortDesc [(1 : ℚ)/4, 1/400] = [0, 1] := by
    have h2 : List.range 2 = [0, 1] := by decide
    simp only [argsortDesc, List.length_cons, List.length_nil, h2,
      List.insertionSort, List.orderedInsert]
    rw [if_pos (by norm_num)]
  have hsel : (argsortDesc (vizBatchEx.predLogits.map
      (fun r => (smEx r).getD 1 0))).take vizBatchEx.gtBoxes.length = [0, 1] := by
    have hscores : vizBatchEx.predLogits.map (fun r => (smEx r).getD 1 0) =
        [(1 : ℚ)/4, 1/400] := by
      show [(smEx [0, 0, 0, 0]).getD 1 0, (smEx [0, 0, 0, 9]).getD 1 0] =
        [(1 : ℚ)/4, 1/400]
      rw [h0, hA]
      rfl
    rw [hscores, hsort]
    rfl
  have hdrop0 : (List.replicate 4 ((1 : ℚ)/4)).dropLast = [1/4, 1/4, 1/4] := rfl
  have hdropA : ([(1 : ℚ)/400, 1/400, 1/400, 397/400]).dropLast =
    [1/400, 1/400, 1/400] := rfl
  have hd1 : decide ((1 : ℚ)/100 < rowMax [1/4, 1/4, 1/4]) = true := by
    simp only [decide_eq_true_eq]
    norm_num [rowMax]
  have hd2 : decide ((1 : ℚ)/100 < rowMax [(1 : ℚ)/400, 1/400, 1/400]) = false := by
    simp only [decide_eq_false_iff_not]
    norm_num [rowMax]
  refine ⟨by rw [hsel]; rfl, ?_, by rw [hA]; norm_num, ?_⟩
  · have hg : ∀ e ∈ (plot_result smEx (fun bx => bx) 1 1
        (((argsortDesc (vizBatchEx.predLogits.map (fun r => (smEx r).getD 1 0))).take
            vizBatchEx.gtBoxes.length).map (fun i => vizBatchEx.predBoxes.getD i default))
        (((argsortDesc (vizBatchEx.predLogits.map (fun r => (smEx r).getD 1 0))).take
            vizBatchEx.gtBoxes.length).map (fun i => vizBatchEx.predLogits.getD i []))
        .green true class_name vizBatchEx.gtLabels).draws,
        (decide (e.color = Color.green)) = true := by
      intro e he
      rw [plot_result_draws_color _ _ _ _ _ _ _ _ _ _ e he]
      rfl
    have hr : ∀ e ∈ (plot_result smEx (fun bx => bx) 1 1 vizBatchEx.gtBoxes
        (List.replicate vizBatchEx.gtBoxes.length (List.replicate 4 0))
        .red false class_name vizBatchEx.gtLabels).draws,
        ¬ ((decide (e.color = Color.green)) = true) := by
      intro e he
      rw [plot_result_draws_color _ _ _ _ _ _ _ _ _ _ e he]
      decide
    rw [vizBatchRun_eq, List.filter_append, List.filter_eq_self.mpr hg,
      List.filter_eq_nil_iff.mpr hr, List.append_nil, plot_result_draws,
      plot_result_labelLookups, if_neg (by simp), hsel]
    simp only [List.map_cons, List.map_nil]
    rw [show vizBatchEx.predLogits.getD 0 [] = [0, 0, 0, 0] from rfl,
        show vizBatchEx.predLogits.getD 1 [] = [0, 0, 0, 9] from rfl,
        h0, hA, hdrop0, hdropA]
    simp only [List.map_cons, List.map_nil, hd1, hd2]
    simp [maskFilter]
  · rw [hA]
    have p1 : (0 : ℚ) < 1/400 := by norm_num
    have p2 : (0 : ℚ) < 397/400 := by norm_num
    simp [p1, p2]

/-- C8 amended: for every batch, `viz` selects the top-k predicted boxes
of the first image ranked by descending softmax probability of class 1,
with `top_k` the number of ground-truth boxes; of those it draws in
green exactly the ones whose maximum class probability (excluding the
last class) exceeds 0.01, draws all ground-truth boxes in red on the
same axes, and saves one figure per batch at `vis/img_<image_id>.jpg`. -/
theorem C8_amended_viz_selection_and_draws (d : String) (sm : List ℚ → List ℚ)
    (toXYXY : Box → Box) (imgW imgH : ℚ) (batches : List VizBatch)
    (b : VizBatch)
    (hsm0 : sm (List.replicate 4 0) = List.replicate 4 ((1 : ℚ)/4))
    (hlen : b.gtLabels.length = b.gtBoxes.length) :
    vizRun d sm toXYXY imgW imgH batches =
      batches.map (vizBatchRun "vis" sm toXYXY imgW imgH) ∧
    (vizBatchRun "vis" sm toXYXY imgW imgH b).savePath =
      "vis" ++ "/img_" ++ toString b.imageId ++ ".jpg" ∧
    ((argsortDesc (b.predLogits.map (fun r => (sm r).getD 1 0))).take
        b.gtBoxes.length).length =
      min b.gtBoxes.length b.predLogits.length ∧
    ((((argsortDesc (b.predLogits.map (fun r => (sm r).getD 1 0))).take
        b.gtBoxes.length).map
        (fun i => (b.predLogits.map (fun r => (sm r).getD 1 0)).getD i 0)).Sorted
      (fun x y => y ≤ x)) ∧
    ((vizBatchRun "vis" sm toXYXY imgW imgH b).draws.filter
        (fun e => decide (e.color = Color.green))).map (fun e => e.box) =
      maskFilter
        ((((argsortDesc (b.predLogits.map (fun r => (sm r).getD 1 0))).take
            b.gtBoxes.length).map (fun i => b.predBoxes.getD i default)).map
          (fun bx => scaleBox imgW imgH (toXYXY bx)))
        (((((argsortDesc (b.predLogits.map (fun r => (sm r).getD 1 0))).take
            b.gtBoxes.length).map (fun i => b.predLogits.getD i [])).map
          (fun r => (sm r).dropLast)).map
          (fun r => decide ((1 : ℚ)/100 < rowMax r))) ∧
    ((vizBatchRun "vis" sm toXYXY imgW imgH b).draws.filter
        (fun e => decide (e.color = Color.red))).map (fun e => e.box) =
      b.gtBoxes.map (fun bx => scaleBox imgW imgH (toXYXY bx)) := by
  refine ⟨rfl, rfl, ?_, argsortDesc_take_sorted _ _, ?_, ?_⟩
  · rw [List.length_take, argsortDesc_length, List.length_map]
  · -- green rectangles
    rw [vizBatchRun_eq]
    have hgreen : ∀ e ∈ (plot_result sm toXYXY imgW imgH
        (((argsortDesc (b.predLogits.map (fun r => (sm r).getD 1 0))).take
            b.gtBoxes.length).map (fun i => b.predBoxes.getD i default))
        (((argsortDesc (b.predLogits.map (fun r => (sm r).getD 1 0))).take
            b.gtBoxes.length).map (fun i => b.predLogits.getD i []))
        .green true class_name b.gtLabels).draws,
        (decide (e.color = Color.green)) = true := by
      intro e he
      rw [plot_result_draws_color _ _ _ _ _ _ _ _ _ _ e he]
      rfl
    have hred : ∀ e ∈ (plot_result sm toXYXY imgW imgH b.gtBoxes
        (List.replicate b.gtBoxes.length (List.replicate 4 0))
        .red false class_name b.gtLabels).draws,
        ¬ ((decide (e.color = Color.green)) = true) := by
      intro e he
      rw [plot_result_draws_color _ _ _ _ _ _ _ _ _ _ e he]
      decide
    rw [List.filter_append, List.filter_eq_self.mpr hgreen,
      List.filter_eq_nil_iff.mpr hred, List.append_nil]
    apply plot_result_map_box
    · simp
    · rw [plot_result_labelLookups, if_neg (by simp)]
      simp [maskFilter_length_eq]
  · -- red rectangles
    rw [vizBatchRun_eq]
    have hgreen : ∀ e ∈ (plot_result sm toXYXY imgW imgH
        (((argsortDesc (b.predLogits.map (fun r => (sm r).getD 1 0))).take
            b.gtBoxes.length).map (fun i => b.predBoxes.getD i default))
        (((argsortDesc (b.predLogits.map (fun r => (sm r).getD 1 0))).take
            b.gtBoxes.length).map (fun i => b.predLogits.getD i []))
        .green true class_name b.gtLabels).draws,
        ¬ ((decide (e.color = Color.red)) = true) := by
      intro e he
      rw [plot_result_draws_color _ _ _ _ _ _ _ _ _ _ e he]
      decide
    have hred : ∀ e ∈ (plot_result sm toXYXY imgW imgH b.gtBoxes
        (List.replicate b.gtBoxes.length (List.replicate 4 0))
        .red false class_name b.gtLabels).draws,
        (decide (e.color = Color.red)) = true := by
      intro e he
      rw [plot_result_draws_color _ _ _ _ _ _ _ _ _ _ e he]
      rfl
    rw [List.filter_append, List.filter_eq_nil_iff.mpr hgreen,
      List.filter_eq_self.mpr hred, List.nil_append]
    have hprobas : (List.replicate b.gtBoxes.length
          (List.replicate 4 (0 : ℚ))).map (fun r => (sm r).dropLast) =
        List.replicate b.gtBoxes.length [(1 : ℚ)/4, 1/4, 1/4] := by
      rw [List.map_replicate, hsm0]
      rfl
    have hkeep : ((List.replicate b.gtBoxes.length
          (List.replicate 4 (0 : ℚ))).map (fun r => (sm r).dropLast)).map
          (fun r => decide ((1 : ℚ)/100 < rowMax r)) =
        List.replicate b.gtBoxes.length true := by
      rw [hprobas, List.map_replicate]
      norm_num [rowMax]
    have hbox := plot_result_map_box sm toXYXY imgW imgH b.gtBoxes
        (List.replicate b.gtBoxes.length (List.replicate 4 0)) .red false
        class_name b.gtLabels (by simp) ?_
    · rw [hbox, hkeep]
      exact maskFilter_true _ _ (by simp)
    · rw [plot_result_labelLookups, if_pos (by simp), hkeep]
      rw [maskFilter_true _ _ (by rw [hprobas]; simp)]
      simp [hprobas, hlen]

/-- C8 amended, instantiated at the concrete batch: the save path and all
ground-truth boxes drawn red. -/
theorem C8_witness :
    (vizBatchRun "vis" smEx (fun bx => bx) 1 1 vizBatchEx).savePath =
      "vis" ++ "/img_" ++ toString (5 : ℤ) ++ ".jpg" ∧
    ((vizBatchRun "vis" smEx (fun bx => bx) 1 1 vizBatchEx).draws.filter
        (fun e => decide (e.color = Color.red))).map (fun e => e.box) =
      vizBatchEx.gtBoxes.map (fun bx => scaleBox 1 1 bx) := by
  have h := C8_amended_viz_selection_and_draws "d" smEx (fun bx => bx) 1 1
      [vizBatchEx] vizBatchEx (by norm_num [smEx, List.replicate]) rfl
  exact ⟨h.2.1, h.2.2.2.2.2⟩
